import Mathlib

/-!
# Verification of the model-artifact download and cache-management engine

Shallow embedding of the two downloader variants of the repository:

* `Scripts` — `scripts/download_model.py` (`ModelDownloader`, `RetryPolicy`,
  `DownloadStrategyFactory`, `DownloadResult`);
* `Hf` — `downloader/hf.py` (`ModelDownloader.download`, `_verify_model`).

A cache directory is modelled as the list of names of the regular files it
holds (the flattened result of `rglob`); remote interaction is modelled by an
environment record carrying the manifest data and, for each invocation of the
transfer primitive, either the resulting directory contents or a raised
transient error.  Counters in the state record how often each effectful
primitive was invoked, so that "no network call" and "the transfer strategy is
never invoked" become statements about those counters.  Python functions that
can fall off the end of their body (returning the implicit `None`) are given
result type `Option _`, raised exceptions are `Except.error`.
-/

/-- `charListStartsWith l p`: the character list `l` starts with `p`. -/
def charListStartsWith : List Char → List Char → Bool
  | _, [] => true
  | [], _ :: _ => false
  | c :: cs, p :: ps => c == p && charListStartsWith cs ps

/-- `charListHasSub pat l`: some suffix of `l` starts with `pat`. -/
def charListHasSub (pat : List Char) : List Char → Bool
  | [] => charListStartsWith [] pat
  | c :: cs => charListStartsWith (c :: cs) pat || charListHasSub pat cs

/-- Suffix test on strings (Python `str.endswith`), via character lists so that
it evaluates by kernel reduction. -/
def strEndsWith (s suf : String) : Bool :=
  s.data.drop (s.data.length - suf.data.length) == suf.data &&
    suf.data.length ≤ s.data.length

/-- Substring test on strings (Python `in`), via character lists. -/
def strContainsSub (s pat : String) : Bool :=
  charListHasSub pat.data s.data

/-- Glob match for the pattern `*.incomplete`: the name ends in `.incomplete`. -/
def matchesIncomplete (name : String) : Bool :=
  strEndsWith name ".incomplete"

/-- Glob match for the pattern `*.part*`: the name contains `.part`
(each surrounding star may match the empty string). -/
def matchesPart (name : String) : Bool :=
  strContainsSub name ".part"

/-- A name matching the weight-file patterns
`MODEL_FILE_PATTERNS = ["*.safetensors", "*.bin"]` of `scripts/download_model.py`. -/
def isWeightFile (name : String) : Bool :=
  strEndsWith name ".safetensors" || strEndsWith name ".bin"

namespace Scripts

/-- `ModelDownloader.validate_cache` of `scripts/download_model.py`:
collect `rglob("*.safetensors") + rglob("*.bin")`; `False` if that list is
empty; `False` if `rglob("*.incomplete")` is non-empty; `True` otherwise.
(The `*.part*` pattern is *not* consulted here.) -/
def validate_cache (files : List String) : Bool :=
  let model_files :=
    files.filter (fun f => strEndsWith f ".safetensors") ++
      files.filter (fun f => strEndsWith f ".bin")
  if model_files.isEmpty then
    false
  else if !(files.filter (fun f => strEndsWith f ".incomplete")).isEmpty then
    false
  else
    true

/-- `ModelDownloader.cleanup_incomplete`: unlink every file matching a pattern
in `INCOMPLETE_PATTERNS = ["*.incomplete", "*.part*"]`. -/
def cleanup_incomplete (files : List String) : List String :=
  files.filter (fun f => !(matchesIncomplete f || matchesPart f))

/-- The two `DownloadStrategy` variants of `scripts/download_model.py`. -/
inductive Strategy where
  | safetensors : Strategy
  | defaultStrategy : Strategy
deriving DecidableEq

/-- `DownloadStrategyFactory.create_strategy`: `none` models the case where
`repository.get_model_info` raised (degrade to `DefaultStrategy`); otherwise
`SafetensorsStrategy` iff some sibling filename ends in `.safetensors`. -/
def create_strategy (siblings : Option (List String)) : Strategy :=
  match siblings with
  | none => .defaultStrategy
  | some files =>
      if files.any (fun f => strEndsWith f ".safetensors") then .safetensors
      else .defaultStrategy

end Scripts

namespace Hf

/-- `ModelDownloader.REQUIRED_FILES` of `downloader/hf.py`. -/
def REQUIRED_FILES : List String :=
  ["config.json", "tokenizer.json", "tokenizer_config.json"]

/-- `ModelDownloader._verify_model` of `downloader/hf.py`: `False` when the
directory does not exist (`none`); otherwise `REQUIRED_FILES ⊆ files` and one
of the two literal weight names is present.  No marker pattern is consulted. -/
def verify_model (model_dir : Option (List String)) : Bool :=
  match model_dir with
  | none => false
  | some files =>
      let has_required := REQUIRED_FILES.all (fun r => files.contains r)
      let has_weights :=
        ["model.safetensors", "pytorch_model.bin"].any (fun f => files.contains f)
      has_required && has_weights

end Hf

namespace Scripts

/-- How `RetryPolicy.execute` can leave its `while` loop: `return func()`
succeeded, the last failure was re-raised, or the loop condition
`retry_count < max_retries` failed and the function returned the implicit
`None`. -/
inductive ExecOutcome (E T : Type) where
  | returned : T → ExecOutcome E T
  | raised : E → ExecOutcome E T
  | fellThrough : ExecOutcome E T
deriving DecidableEq

/-- Result of a run of the retry loop over a stateful operation: the outcome,
the final state, and the list of back-off delays slept (in order). -/
structure ExecRun (σ E T : Type) where
  outcome : ExecOutcome E T
  state : σ
  sleeps : List Nat
deriving DecidableEq

/-- The `while retry_count < max_retries` loop body of `RetryPolicy.execute`,
over a stateful fallible operation `func`.  `fuel = max_retries - retry_count`
counts the iterations the loop condition still admits; the `retry_count ==
max_retries` re-raise check corresponds to `fuel` reaching `0` right after an
increment.  Each sleep of `self.delay` seconds is recorded. -/
def executeLoop {σ E T : Type} (delay : Nat) (func : σ → Except E T × σ) :
    Nat → σ → List Nat → ExecRun σ E T
  | 0, s, sleeps => ⟨.fellThrough, s, sleeps⟩
  | fuel + 1, s, sleeps =>
      match func s with
      | (.ok t, s1) => ⟨.returned t, s1, sleeps⟩
      | (.error e, s1) =>
          if fuel = 0 then ⟨.raised e, s1, sleeps⟩
          else executeLoop delay func fuel s1 (sleeps ++ [delay])

/-- `RetryPolicy` of `scripts/download_model.py`: `max_retries` is a Python
`int` (may be non-positive), `delay` the fixed sleep in seconds. -/
structure RetryPolicy where
  max_retries : Int
  delay : Nat

/-- `RetryPolicy.execute(func)` for a stateless operation: `func n` is the
outcome of the `n`-th invocation (0-indexed); the state threads the invocation
counter, so `(execute p func).state` is the number of times `func` ran. -/
def RetryPolicy.execute {E T : Type} (p : RetryPolicy) (func : Nat → Except E T) :
    ExecRun Nat E T :=
  executeLoop p.delay (fun n => (func n, n + 1)) p.max_retries.toNat 0 []

/-- `ModelDownloader.MAX_RETRIES`. -/
def MAX_RETRIES : Nat := 3

/-- `ModelDownloader.RETRY_DELAY` (seconds). -/
def RETRY_DELAY : Nat := 1

/-- `DownloadResult` of `scripts/download_model.py`. -/
structure DownloadResult where
  success : Bool
  error : Option String := none
  model_path : Option String := none
deriving DecidableEq

/-- Mutable facts a `download()` call reads and writes: the cache directory
contents and invocation counters for the effectful primitives.
`networkCalls` counts remote requests (`api.model_info` in `ensure_space` and
`snapshot_download` in `download_files`); `transferCalls` counts
`snapshot_download` invocations only; `cleanupCalls` counts invocations of
`cleanup_incomplete`. -/
structure DLState where
  files : List String
  networkCalls : Nat := 0
  transferCalls : Nat := 0
  cleanupCalls : Nat := 0
deriving DecidableEq

/-- Static facts about the remote repository and the filesystem for one
`download()` call.  `SPACE_BUFFER = 1.1` is modelled as the rational `11/10`
(the comparison `available >= total_size * 1.1` becomes
`10 * available ≥ 11 * total_size`).  `modelInfoOk = false` models
`api.model_info` raising inside `ensure_space` (which then returns `False`).
`transfer k files` is what the `k`-th `snapshot_download` invocation does to
the directory contents: new contents, or a raised error. -/
structure Env where
  cache_dir : String
  manifestTotalSize : Nat
  availableBytes : Nat
  modelInfoOk : Bool
  transfer : Nat → List String → Except Unit (List String)

/-- `ModelDownloader.ensure_space` decision on the space numbers (the
comparison performed when `api.model_info` succeeded). -/
def hasSpace (env : Env) : Bool :=
  10 * env.availableBytes ≥ 11 * env.manifestTotalSize

/-- The closure `attempt_download` inside `ModelDownloader.download`:

* `validate_cache()` true → `DownloadResult(True, model_path=cache_dir)`;
* `ensure_space()` false (one `api.model_info` network call; `False` both on
  an insufficient comparison and on a raised lookup) →
  `DownloadResult(False, error="Insufficient disk space")`;
* otherwise `download_files()` (one `snapshot_download` network/transfer
  call, then `validate_cache()` on the new contents); `True` →
  `DownloadResult(True, model_path=cache_dir)`, `False` →
  `raise Exception("Download attempt failed")`. -/
def attempt_download (env : Env) (s : DLState) : Except String DownloadResult × DLState :=
  if validate_cache s.files then
    (.ok ⟨true, none, some env.cache_dir⟩, s)
  else
    let s1 : DLState := { s with networkCalls := s.networkCalls + 1 }
    if !(env.modelInfoOk && hasSpace env) then
      (.ok ⟨false, some "Insufficient disk space", none⟩, s1)
    else
      let s2 : DLState :=
        { s1 with networkCalls := s1.networkCalls + 1,
                  transferCalls := s1.transferCalls + 1 }
      match env.transfer s.transferCalls s.files with
      | .error _ => (.error "Download attempt failed", s2)
      | .ok newFiles =>
          let s3 : DLState := { s2 with files := newFiles }
          if validate_cache newFiles then
            (.ok ⟨true, none, some env.cache_dir⟩, s3)
          else
            (.error "Download attempt failed", s3)

/-- Result of a `download()` call: the returned `DownloadResult` (`none` for
Python's implicit `None`, unreachable with `MAX_RETRIES = 3`), the final
state, and the slept delays. -/
structure DLRun where
  result : Option DownloadResult
  state : DLState
  sleeps : List Nat

/-- `ModelDownloader.download`: run `attempt_download` under
`RetryPolicy(MAX_RETRIES, RETRY_DELAY)`; a propagated exception is converted
into `DownloadResult(False, error=f"Download failed after {MAX_RETRIES}
attempts: {e}")`. -/
def download (env : Env) (s : DLState) : DLRun :=
  match executeLoop RETRY_DELAY (attempt_download env) MAX_RETRIES s [] with
  | ⟨.returned r, s1, sleeps⟩ => ⟨some r, s1, sleeps⟩
  | ⟨.raised e, s1, sleeps⟩ =>
      ⟨some ⟨false, some ("Download failed after 3 attempts: " ++ e), none⟩, s1, sleeps⟩
  | ⟨.fellThrough, s1, sleeps⟩ => ⟨none, s1, sleeps⟩

/-- `ModelDownloader.__init__`: an empty `model_id` raises
`ValueError("Invalid model_id")`; otherwise the downloader is constructed
(its `model_id` field is stored).  The raised `ValueError` is the `.error`
case. -/
def ModelDownloader.init (model_id : String) : Except String String :=
  if model_id.data.isEmpty then .error "Invalid model_id" else .ok model_id

end Scripts

namespace Hf

/-- Result of a run of `ModelDownloader.download` of `downloader/hf.py`:
the returned value (`none` for the implicit Python `None` when the `for`
loop completes without returning), the number of `snapshot_download`
invocations, and the slept back-off delays in order. -/
structure HFRun where
  result : Option Bool
  calls : Nat
  sleeps : List Nat
deriving DecidableEq

/-- Static facts for one `hf.py` `download` call.  `dirExists` models
`model_dir.exists()`; `initialFiles` the current directory contents;
`max_retries` is `settings.get("HF_MAX_RETRIES", 3)`; `snapshot k` is the
outcome of the `k`-th `snapshot_download` invocation: a raised
`HfHubHTTPError`/`TimeoutError`, or the resulting directory contents. -/
structure HFEnv where
  dirExists : Bool
  initialFiles : List String
  max_retries : Nat
  snapshot : Nat → Except Unit (List String)

/-- The `for attempt in range(max_retries)` loop of `hf.py` `download`:
`fuel = max_retries - attempt` iterations remain; a successful
`snapshot_download` returns `_verify_model` of the new contents; a caught
error on the last admitted attempt (`attempt == max_retries - 1`) returns
`False`; otherwise sleep `2 ** attempt` seconds and continue. -/
def downloadLoop (snapshot : Nat → Except Unit (List String)) :
    Nat → Nat → List Nat → HFRun
  | 0, attempt, sleeps => ⟨none, attempt, sleeps⟩
  | fuel + 1, attempt, sleeps =>
      match snapshot attempt with
      | .ok newFiles => ⟨some (verify_model (some newFiles)), attempt + 1, sleeps⟩
      | .error _ =>
          if fuel = 0 then ⟨some false, attempt + 1, sleeps⟩
          else downloadLoop snapshot fuel (attempt + 1) (sleeps ++ [2 ^ attempt])

/-- `ModelDownloader.download` of `downloader/hf.py`: fast path when the
directory exists and `_verify_model` passes (no network); otherwise the retry
loop. -/
def download (env : HFEnv) : HFRun :=
  if env.dirExists && verify_model (some env.initialFiles) then
    ⟨some true, 0, []⟩
  else
    downloadLoop env.snapshot env.max_retries 0 []

end Hf

section Scratch

example : Scripts.validate_cache ["model.safetensors"] = true := by decide

example : Scripts.validate_cache ["model.safetensors", "a.incomplete"] = false := by decide

example : Scripts.validate_cache ["model.safetensors", "a.part0"] = true := by decide

example : Hf.verify_model (some ["config.json", "tokenizer.json",
    "tokenizer_config.json", "model.safetensors", "x.incomplete"]) = true := by decide

example : Scripts.create_strategy (some ["pytorch_model.bin"]) =
    Scripts.Strategy.defaultStrategy := by decide

example : matchesPart "a.part0" = true := by decide

example : matchesPart "apart" = false := by decide

-- Space gating: cache empty, manifest 100 bytes, 50 available.
example :
    (Scripts.download
      ⟨"cache", 100, 50, true, fun _ fs => .ok fs⟩ ⟨[], 0, 0, 0⟩).result =
      some ⟨false, some "Insufficient disk space", none⟩ := by decide

-- Fast path: cache already valid, no network.
example :
    (Scripts.download
      ⟨"cache", 100, 1000, true, fun _ fs => .ok fs⟩
      ⟨["model.safetensors"], 0, 0, 0⟩).state.networkCalls = 0 := by decide

-- Transfer always raises: three attempts, wrapped failure.
example :
    (Scripts.download
      ⟨"cache", 100, 1000, true, fun _ _ => .error ()⟩ ⟨[], 0, 0, 0⟩).result =
      some ⟨false,
        some "Download failed after 3 attempts: Download attempt failed", none⟩ := by
  decide

example :
    (Scripts.download
      ⟨"cache", 100, 1000, true, fun _ _ => .error ()⟩
      ⟨[], 0, 0, 0⟩).state.transferCalls = 3 := by decide

-- Transfer leaves only an in-progress marker: verification fails, the marker
-- is still there afterwards.
example :
    ((Scripts.download
      ⟨"cache", 100, 1000, true, fun _ _ => .ok ["model.safetensors.incomplete"]⟩
      ⟨[], 0, 0, 0⟩).state.files) = ["model.safetensors.incomplete"] := by decide

-- hf loop: always-failing snapshot with 3 retries sleeps 1s then 2s.
example :
    (Hf.download ⟨false, [], 3, fun _ => .error ()⟩).sleeps = [1, 2] := by decide

example :
    (Hf.download ⟨false, [], 3, fun _ => .error ()⟩).result = some false := by decide

-- hf loop with 0 retries falls through to `None`.
example :
    (Hf.download ⟨false, [], 0, fun _ => .error ()⟩).result = none := by decide

-- RetryPolicy with non-positive max_retries never invokes the operation.
example :
    (Scripts.RetryPolicy.execute ⟨0, 5⟩ (fun _ => (.error "boom" : Except String Nat))).state
      = 0 := by decide

example :
    (Scripts.RetryPolicy.execute ⟨3, 5⟩ (fun _ => (.error "boom" : Except String Nat))).state
      = 3 := by decide

end Scratch

namespace Scripts

/-- A successful `attempt_download` result leaves a cache that
`validate_cache` accepts (either the fast path saw it valid, or
`download_files` ended with `validate_cache` true on the new contents). -/
lemma attempt_download_success_validates (env : Env) (s : DLState) (r : DownloadResult)
    (s1 : DLState) (h : attempt_download env s = (.ok r, s1)) (hr : r.success = true) :
    validate_cache s1.files = true := by
  unfold attempt_download at h
  split at h
  · next hv =>
      obtain ⟨hr1, hs1⟩ : r = ⟨true, none, some env.cache_dir⟩ ∧ s1 = s := by
        constructor <;> cases h <;> rfl
      rw [hs1]
      exact hv
  · next hv =>
      split at h
      · obtain ⟨hr1, _⟩ : r = ⟨false, some "Insufficient disk space", none⟩ ∧ True := by
          constructor <;> cases h <;> trivial
        rw [hr1] at hr
        simp at hr
      · split at h
        · cases h
        · next newFiles heq =>
            split at h
            · next hv2 =>
                obtain hs1 : s1.files = newFiles := by cases h; rfl
                rw [hs1]
                exact hv2
            · cases h

/-- Propagating `attempt_download_success_validates` through the retry loop:
a `returned` success leaves a validated cache. -/
lemma executeLoop_success_validates (env : Env) :
    ∀ (fuel : Nat) (s : DLState) (sl : List Nat) (r : DownloadResult) (s1 : DLState)
      (sl1 : List Nat),
      executeLoop RETRY_DELAY (attempt_download env) fuel s sl = ⟨.returned r, s1, sl1⟩ →
      r.success = true → validate_cache s1.files = true := by
  intro fuel
  induction fuel with
  | zero => intro s sl r s1 sl1 h; cases h
  | succ n ih =>
      intro s sl r s1 sl1 h hr
      rw [executeLoop] at h
      split at h
      · next t s2 heq =>
          obtain ⟨ht, hs⟩ : t = r ∧ s2 = s1 := by constructor <;> cases h <;> rfl
          exact attempt_download_success_validates env s r s1 (ht ▸ hs ▸ heq) hr
      · next e s2 heq =>
          split at h
          · cases h
          · exact ih s2 (sl ++ [RETRY_DELAY]) r s1 sl1 h hr

/-- With at least one admitted attempt the retry loop cannot fall through to
the implicit `None`. -/
lemma executeLoop_ne_fellThrough {σ E T : Type} (d : Nat) (f : σ → Except E T × σ) :
    ∀ (fuel : Nat), fuel ≠ 0 → ∀ (s : σ) (sl : List Nat),
      (executeLoop d f fuel s sl).outcome ≠ .fellThrough := by
  intro fuel
  induction fuel with
  | zero => intro h; exact absurd rfl h
  | succ n ih =>
      intro _ s sl
      rw [executeLoop]
      split
      · simp
      · next e s1 heq =>
          split
          · simp
          · next hn => exact ih hn s1 (sl ++ [d])

/-- No branch of `attempt_download` touches the `cleanup_incomplete` counter. -/
lemma attempt_download_cleanupCalls (env : Env) (s : DLState) :
    (attempt_download env s).2.cleanupCalls = s.cleanupCalls := by
  unfold attempt_download
  split
  · rfl
  · split
    · rfl
    · split
      · rfl
      · split <;> rfl

/-- The retry loop never touches the `cleanup_incomplete` counter either. -/
lemma executeLoop_cleanupCalls (env : Env) :
    ∀ (fuel : Nat) (s : DLState) (sl : List Nat),
      (executeLoop RETRY_DELAY (attempt_download env) fuel s sl).state.cleanupCalls =
        s.cleanupCalls := by
  intro fuel
  induction fuel with
  | zero => intro s sl; rfl
  | succ n ih =>
      intro s sl
      rw [executeLoop]
      split
      · next t s1 heq =>
          have := attempt_download_cleanupCalls env s
          rw [heq] at this
          exact this
      · next e s1 heq =>
          have hc : s1.cleanupCalls = s.cleanupCalls := by
            have := attempt_download_cleanupCalls env s
            rw [heq] at this
            exact this
          split
          · exact hc
          · rw [ih s1 (sl ++ [RETRY_DELAY])]
            exact hc

/-- The fast path of `download()`: a cache that `validate_cache` accepts is
returned as an immediate success, with the state untouched (in particular no
network call, no transfer, no sleep). -/
lemma download_fast_path (env : Env) (s : DLState)
    (h : validate_cache s.files = true) :
    download env s = ⟨some ⟨true, none, some env.cache_dir⟩, s, []⟩ := by
  simp [download, executeLoop, attempt_download, MAX_RETRIES, RETRY_DELAY, h]

/-- Any successful `download()` leaves a cache that `validate_cache`
accepts. -/
lemma download_success_validates (env : Env) (s : DLState) (r : DownloadResult)
    (h : (download env s).result = some r) (hr : r.success = true) :
    validate_cache ((download env s).state).files = true := by
  rcases heq : executeLoop RETRY_DELAY (attempt_download env) MAX_RETRIES s []
    with ⟨outcome, s1, sl⟩
  cases outcome with
  | returned t =>
      simp only [download, heq] at h ⊢
      have ht : t = r := by simpa using h
      exact executeLoop_success_validates env MAX_RETRIES s [] r s1 sl (ht ▸ heq) hr
  | raised e =>
      exfalso
      simp only [download, heq, Option.some.injEq] at h
      rw [← h] at hr
      cases hr
  | fellThrough =>
      exfalso
      simp [download, heq] at h

end Scripts

namespace Hf

/-- Closed form of the `hf.py` retry loop when every `snapshot_download`
invocation raises: it returns `False` after consuming all admitted attempts,
sleeping `2 ^ attempt` seconds after each non-final failure. -/
lemma downloadLoop_allError (snapshot : Nat → Except Unit (List String))
    (h : ∀ k, snapshot k = .error ()) :
    ∀ (fuel : Nat), fuel ≠ 0 → ∀ (attempt : Nat) (sleeps : List Nat),
      downloadLoop snapshot fuel attempt sleeps =
        ⟨some false, attempt + fuel,
          sleeps ++ (List.range (fuel - 1)).map (fun k => 2 ^ (attempt + k))⟩ := by
  intro fuel
  induction fuel with
  | zero => intro hf; exact absurd rfl hf
  | succ n ih =>
      intro _ attempt sleeps
      rw [downloadLoop, h attempt]
      by_cases hn : n = 0
      · subst hn
        simp
      · rw [if_neg hn, ih hn (attempt + 1) (sleeps ++ [2 ^ attempt])]
        obtain ⟨m, hm⟩ : ∃ m, n = m + 1 :=
          ⟨n - 1, (Nat.succ_pred_eq_of_pos (Nat.pos_of_ne_zero hn)).symm⟩
        subst hm
        simp only [HFRun.mk.injEq, Nat.add_sub_cancel]
        refine ⟨trivial, by omega, ?_⟩
        rw [List.append_assoc]
        refine congrArg (fun l => sleeps ++ l) ?_
        rw [List.range_succ_eq_map m]
        simp only [List.map_cons, List.map_map, Nat.add_zero, List.singleton_append]
        refine congrArg (fun l => 2 ^ attempt :: l) ?_
        refine List.map_congr_left ?_
        intro k _
        simp only [Function.comp]
        refine congrArg (fun e => 2 ^ e) ?_
        omega

end Hf

/-! ## Claim theorems -/

/-- C1 (counterexample): a directory holding all of `REQUIRED_FILES`, a weight
file and an `*.incomplete` in-progress marker is nevertheless verified as
complete by `_verify_model` of `downloader/hf.py` — the marker does not
dominate there, refuting the claim that verification never reports such a
directory Complete. -/
theorem verify_model_accepts_incomplete_marker :
    Hf.verify_model (some ["config.json", "tokenizer.json", "tokenizer_config.json",
      "model.safetensors", "model.bin.incomplete"]) = true ∧
    matchesIncomplete "model.bin.incomplete" = true := by
  decide

/-- C1 (amended): in `scripts/download_model.py`, any file matching
`*.incomplete` forces `validate_cache` to report the cache as not complete,
regardless of other content.  (The `*.part*` pattern is not consulted by
`validate_cache`, and `_verify_model` of `downloader/hf.py` consults no marker
pattern at all.) -/
theorem validate_cache_incomplete_marker_never_complete
    (files : List String) (f : String) (hmem : f ∈ files)
    (hinc : matchesIncomplete f = true) :
    Scripts.validate_cache files = false := by
  have hfil : f ∈ files.filter (fun g => strEndsWith g ".incomplete") :=
    List.mem_filter.mpr ⟨hmem, hinc⟩
  have hne : (files.filter (fun g => strEndsWith g ".incomplete")).isEmpty = false := by
    cases hl : files.filter (fun g => strEndsWith g ".incomplete") with
    | nil => rw [hl] at hfil; cases hfil
    | cons a l => rfl
  unfold Scripts.validate_cache
  simp only [hne, Bool.not_false, if_true]
  split <;> rfl

/-- C1 (witness): a cache holding a weight file plus `w.incomplete` is
reported not complete. -/
theorem validate_cache_incomplete_marker_witness :
    Scripts.validate_cache ["model.safetensors", "w.incomplete"] = false :=
  validate_cache_incomplete_marker_never_complete
    ["model.safetensors", "w.incomplete"] "w.incomplete" (by decide) (by decide)

/-- C2 (confirmed): for an operation that raises on every invocation,
`RetryPolicy.execute` with `max_retries = 3` invokes the operation exactly
3 times and re-raises the last (third) failure; and the orchestrator
`download()` — whose cache check fails, space check passes and transfer
always raises a transient error — converts the propagated failure into
`DownloadResult(False, error="Download failed after 3 attempts: ...")` after
exactly 3 transfer invocations. -/
theorem retry_policy_exhausts_three_attempts :
    (∀ (E T : Type) (d : Nat) (func : Nat → Except E T),
      (∀ n, ∃ e, func n = Except.error e) →
      (Scripts.RetryPolicy.execute ⟨3, d⟩ func).state = 3 ∧
      ∃ e, func 2 = Except.error e ∧
        (Scripts.RetryPolicy.execute ⟨3, d⟩ func).outcome = Scripts.ExecOutcome.raised e) ∧
    (∀ (env : Scripts.Env) (s : Scripts.DLState),
      Scripts.validate_cache s.files = false → env.modelInfoOk = true →
      Scripts.hasSpace env = true →
      (∀ k fs, env.transfer k fs = Except.error ()) →
      (Scripts.download env s).result =
        some ⟨false, some "Download failed after 3 attempts: Download attempt failed",
          none⟩ ∧
      (Scripts.download env s).state.transferCalls = s.transferCalls + 3) := by
  constructor
  · intro E T d func h
    obtain ⟨e0, h0⟩ := h 0
    obtain ⟨e1, h1⟩ := h 1
    obtain ⟨e2, h2⟩ := h 2
    refine ⟨?_, e2, h2, ?_⟩ <;>
      simp [Scripts.RetryPolicy.execute, Scripts.executeLoop, h0, h1, h2]
  · intro env s hval hinfo hspace htr
    constructor <;>
      simp [Scripts.download, Scripts.executeLoop, Scripts.attempt_download,
        Scripts.MAX_RETRIES, Scripts.RETRY_DELAY, hval, hinfo, hspace, htr]

/-- C2 (witness): the always-failing operation returning `Except.error "boom"`
is invoked exactly 3 times and the third error is re-raised; a concrete
environment whose transfer always raises yields the wrapped terminal failure
after 3 transfer invocations. -/
theorem retry_policy_exhausts_three_attempts_witness :
    (Scripts.RetryPolicy.execute ⟨3, 1⟩
        (fun _ => (Except.error "boom" : Except String Nat))).state = 3 ∧
    (Scripts.download ⟨"cache", 100, 1000, true, fun _ _ => Except.error ()⟩
        ⟨[], 0, 0, 0⟩).state.transferCalls = 0 + 3 :=
  ⟨(retry_policy_exhausts_three_attempts.1 String Nat 1
      (fun _ => Except.error "boom") (fun _ => ⟨"boom", rfl⟩)).1,
    (retry_policy_exhausts_three_attempts.2
      ⟨"cache", 100, 1000, true, fun _ _ => Except.error ()⟩ ⟨[], 0, 0, 0⟩
      (by decide) rfl (by decide) (fun _ _ => rfl)).2⟩

/-- C3 (confirmed): when the cache is not already complete, the manifest
lookup succeeds and the manifest's total size times the 1.1 safety buffer
exceeds the available bytes (`11 * total > 10 * available`), `download()`
returns `DownloadResult(False, error="Insufficient disk space")` after the
single manifest query: the transfer is never invoked (`transferCalls`
unchanged) and there is no retry (no sleeps, one attempt). -/
theorem download_space_gate_no_transfer_no_retry
    (env : Scripts.Env) (s : Scripts.DLState)
    (hval : Scripts.validate_cache s.files = false)
    (hinfo : env.modelInfoOk = true)
    (hbig : 11 * env.manifestTotalSize > 10 * env.availableBytes) :
    Scripts.download env s =
      ⟨some ⟨false, some "Insufficient disk space", none⟩,
        { s with networkCalls := s.networkCalls + 1 }, []⟩ := by
  have hspace : Scripts.hasSpace env = false := by
    unfold Scripts.hasSpace
    simp only [decide_eq_false_iff_not]
    omega
  simp [Scripts.download, Scripts.executeLoop, Scripts.attempt_download,
    Scripts.MAX_RETRIES, Scripts.RETRY_DELAY, hval, hinfo, hspace]

/-- C3 (witness): empty cache, 100-byte manifest, 50 bytes available — the
call fails with the insufficient-space error, one network call, zero transfer
invocations, no sleeps. -/
theorem download_space_gate_witness :
    Scripts.download ⟨"cache", 100, 50, true, fun _ fs => Except.ok fs⟩ ⟨[], 0, 0, 0⟩ =
      ⟨some ⟨false, some "Insufficient disk space", none⟩, ⟨[], 1, 0, 0⟩, []⟩ :=
  download_space_gate_no_transfer_no_retry
    ⟨"cache", 100, 50, true, fun _ fs => Except.ok fs⟩ ⟨[], 0, 0, 0⟩
    (by decide) rfl (by decide)

/-- C4 (confirmed): a cache entry that already verifies as complete makes
`download()` return success with the state (hence the network-call counter)
untouched — in both variants; and after any successful `download()`, a second
call returns success with the state unchanged again, so the second call
performs zero additional network calls. -/
theorem download_idempotent_no_network_when_cached :
    (∀ (env : Scripts.Env) (s : Scripts.DLState),
      Scripts.validate_cache s.files = true →
      Scripts.download env s = ⟨some ⟨true, none, some env.cache_dir⟩, s, []⟩) ∧
    (∀ env : Hf.HFEnv,
      env.dirExists = true → Hf.verify_model (some env.initialFiles) = true →
      Hf.download env = ⟨some true, 0, []⟩) ∧
    (∀ (env1 env2 : Scripts.Env) (s : Scripts.DLState) (r : Scripts.DownloadResult),
      (Scripts.download env1 s).result = some r → r.success = true →
      Scripts.download env2 (Scripts.download env1 s).state =
        ⟨some ⟨true, none, some env2.cache_dir⟩, (Scripts.download env1 s).state, []⟩) := by
  refine ⟨fun env s h => Scripts.download_fast_path env s h, ?_, ?_⟩
  · intro env h1 h2
    simp [Hf.download, h1, h2]
  · intro env1 env2 s r h hr
    exact Scripts.download_fast_path env2 _
      (Scripts.download_success_validates env1 s r h hr)

/-- C4 (witness): with a cached weight file, `download()` succeeds with zero
network calls, and a repeated call after a success changes nothing. -/
theorem download_idempotent_witness :
    Scripts.download ⟨"cache", 100, 1000, true, fun _ fs => Except.ok fs⟩
        ⟨["model.safetensors"], 0, 0, 0⟩ =
      ⟨some ⟨true, none, some "cache"⟩, ⟨["model.safetensors"], 0, 0, 0⟩, []⟩ ∧
    Scripts.download ⟨"cache2", 7, 7, false, fun _ _ => Except.error ()⟩
        (Scripts.download ⟨"cache", 100, 1000, true, fun _ fs => Except.ok fs⟩
          ⟨["model.safetensors"], 0, 0, 0⟩).state =
      ⟨some ⟨true, none, some "cache2"⟩,
        (Scripts.download ⟨"cache", 100, 1000, true, fun _ fs => Except.ok fs⟩
          ⟨["model.safetensors"], 0, 0, 0⟩).state, []⟩ ∧
    Hf.download ⟨true, ["config.json", "tokenizer.json", "tokenizer_config.json",
        "model.safetensors"], 3, fun _ => Except.error ()⟩ = ⟨some true, 0, []⟩ :=
  ⟨download_idempotent_no_network_when_cached.1
      ⟨"cache", 100, 1000, true, fun _ fs => Except.ok fs⟩
      ⟨["model.safetensors"], 0, 0, 0⟩ (by decide),
    download_idempotent_no_network_when_cached.2.2
      ⟨"cache", 100, 1000, true, fun _ fs => Except.ok fs⟩
      ⟨"cache2", 7, 7, false, fun _ _ => Except.error ()⟩
      ⟨["model.safetensors"], 0, 0, 0⟩ ⟨true, none, some "cache"⟩ (by decide) rfl,
    download_idempotent_no_network_when_cached.2.1
      ⟨true, ["config.json", "tokenizer.json", "tokenizer_config.json",
        "model.safetensors"], 3, fun _ => Except.error ()⟩ rfl (by decide)⟩

/-- C5 (counterexample): a transfer that leaves only the in-progress marker
`model.safetensors.incomplete` makes every verification fail, `download()`
terminates with the wrapped verification failure — and the marker file is
still in the target directory afterwards, with `cleanup_incomplete` never
invoked. -/
theorem download_verification_failure_keeps_markers :
    (Scripts.download ⟨"cache", 100, 1000, true,
        fun _ _ => Except.ok ["model.safetensors.incomplete"]⟩ ⟨[], 0, 0, 0⟩).result =
      some ⟨false, some "Download failed after 3 attempts: Download attempt failed",
        none⟩ ∧
    (Scripts.download ⟨"cache", 100, 1000, true,
        fun _ _ => Except.ok ["model.safetensors.incomplete"]⟩ ⟨[], 0, 0, 0⟩).state.files =
      ["model.safetensors.incomplete"] ∧
    matchesIncomplete "model.safetensors.incomplete" = true ∧
    (Scripts.download ⟨"cache", 100, 1000, true,
        fun _ _ => Except.ok ["model.safetensors.incomplete"]⟩
      ⟨[], 0, 0, 0⟩).state.cleanupCalls = 0 := by
  decide

/-- C5 (amended): `download()` never invokes `cleanup_incomplete` (the method
is defined but not called on any path, so in-progress files can remain after a
verification failure); `cleanup_incomplete` itself, when called explicitly,
removes exactly the files matching `*.incomplete` or `*.part*` and keeps all
others. -/
theorem cleanup_incomplete_unused_by_download :
    (∀ (env : Scripts.Env) (s : Scripts.DLState),
      (Scripts.download env s).state.cleanupCalls = s.cleanupCalls) ∧
    (∀ (files : List String) (f : String), f ∈ Scripts.cleanup_incomplete files →
      f ∈ files ∧ matchesIncomplete f = false ∧ matchesPart f = false) ∧
    (∀ (files : List String) (f : String), f ∈ files →
      matchesIncomplete f = false → matchesPart f = false →
      f ∈ Scripts.cleanup_incomplete files) := by
  refine ⟨?_, ?_, ?_⟩
  · intro env s
    unfold Scripts.download
    rcases heq : Scripts.executeLoop Scripts.RETRY_DELAY (Scripts.attempt_download env)
      Scripts.MAX_RETRIES s [] with ⟨outcome, s1, sl⟩
    have hc := Scripts.executeLoop_cleanupCalls env Scripts.MAX_RETRIES s []
    rw [heq] at hc
    cases outcome <;> simpa using hc
  · intro files f h
    have := List.mem_filter.mp h
    refine ⟨this.1, ?_, ?_⟩ <;>
      · have hb := this.2
        simp only [Bool.not_eq_true', Bool.or_eq_false_iff] at hb
        first
          | exact hb.1
          | exact hb.2
  · intro files f hmem h1 h2
    exact List.mem_filter.mpr ⟨hmem, by simp [h1, h2]⟩

/-- C5 (witness): in a directory holding a weight file, a marker and a partial
file, `cleanup_incomplete` removes exactly the two markers; and the
cleanup counter of a concrete `download()` run stays zero. -/
theorem cleanup_incomplete_unused_witness :
    (Scripts.download ⟨"cache", 100, 1000, true, fun _ fs => Except.ok fs⟩
      ⟨["model.safetensors"], 0, 0, 0⟩).state.cleanupCalls = 0 ∧
    "model.safetensors" ∈
      Scripts.cleanup_incomplete ["model.safetensors", "w.incomplete", "a.part0"] :=
  ⟨cleanup_incomplete_unused_by_download.1
      ⟨"cache", 100, 1000, true, fun _ fs => Except.ok fs⟩ ⟨["model.safetensors"], 0, 0, 0⟩,
    cleanup_incomplete_unused_by_download.2.2
      ["model.safetensors", "w.incomplete", "a.part0"] "model.safetensors"
      (by decide) (by decide) (by decide)⟩

/-- C6 (counterexample): constructing the downloader with the empty artifact
identifier raises `ValueError("Invalid model_id")` — the caller gets a raw
exception, not a structured `DownloadResult`, refuting the claim for the
empty string. -/
theorem init_empty_model_id_raises :
    Scripts.ModelDownloader.init "" = Except.error "Invalid model_id" := rfl

/-- C6 (amended): the empty identifier fails fast at construction with
`ValueError("Invalid model_id")` (before any retry or network activity); any
non-empty identifier constructs successfully, and `download()` itself always
returns a structured `DownloadResult` — it cannot fall through to `None`, and
every exception of an attempt is converted into a failure result. -/
theorem download_structured_result_nonempty_id :
    Scripts.ModelDownloader.init "" = Except.error "Invalid model_id" ∧
    (∀ model_id : String, model_id.data ≠ [] →
      Scripts.ModelDownloader.init model_id = Except.ok model_id) ∧
    (∀ (env : Scripts.Env) (s : Scripts.DLState),
      ∃ r : Scripts.DownloadResult, (Scripts.download env s).result = some r) := by
  refine ⟨rfl, ?_, ?_⟩
  · intro model_id h
    unfold Scripts.ModelDownloader.init
    cases hd : model_id.data with
    | nil => exact absurd hd h
    | cons a l => rfl
  · intro env s
    rcases heq : Scripts.executeLoop Scripts.RETRY_DELAY (Scripts.attempt_download env)
      Scripts.MAX_RETRIES s [] with ⟨outcome, s1, sl⟩
    cases outcome with
    | returned t => exact ⟨t, by simp [Scripts.download, heq]⟩
    | raised e =>
        exact ⟨⟨false, some ("Download failed after 3 attempts: " ++ e), none⟩,
          by simp [Scripts.download, heq]⟩
    | fellThrough =>
        exfalso
        have hnf := Scripts.executeLoop_ne_fellThrough Scripts.RETRY_DELAY
          (Scripts.attempt_download env) Scripts.MAX_RETRIES (by decide) s []
        rw [heq] at hnf
        exact hnf rfl

/-- C6 (witness): `"x"` constructs successfully; a concrete `download()` run
yields a structured result. -/
theorem download_structured_result_witness :
    Scripts.ModelDownloader.init "x" = Except.ok "x" ∧
    ∃ r : Scripts.DownloadResult,
      (Scripts.download ⟨"cache", 100, 1000, true, fun _ fs => Except.ok fs⟩
        ⟨[], 0, 0, 0⟩).result = some r :=
  ⟨download_structured_result_nonempty_id.2.1 "x" (by decide),
    download_structured_result_nonempty_id.2.2
      ⟨"cache", 100, 1000, true, fun _ fs => Except.ok fs⟩ ⟨[], 0, 0, 0⟩⟩

/-- C7 (counterexample): a manifest whose only file is `pytorch_model.bin`
matches the weight-file patterns (`*.bin` is in `MODEL_FILE_PATTERNS`), yet
`create_strategy` returns the generic fallback strategy — selection tests only
the `.safetensors` extension, refuting "weight-aware exactly when at least one
file matches a weight-file extension". -/
theorem create_strategy_ignores_bin_weights :
    Scripts.create_strategy (some ["pytorch_model.bin"]) =
      Scripts.Strategy.defaultStrategy ∧
    isWeightFile "pytorch_model.bin" = true := by
  decide

/-- C7 (amended): strategy selection returns the weight-aware
`SafetensorsStrategy` exactly when at least one remote file ends in
`.safetensors` (files matching only `*.bin` do not count); if the metadata
lookup throws, selection degrades to the generic `DefaultStrategy` instead of
aborting. -/
theorem create_strategy_safetensors_iff :
    (∀ files : List String,
      Scripts.create_strategy (some files) = Scripts.Strategy.safetensors ↔
        files.any (fun f => strEndsWith f ".safetensors") = true) ∧
    Scripts.create_strategy none = Scripts.Strategy.defaultStrategy := by
  refine ⟨?_, rfl⟩
  intro files
  constructor
  · intro h
    by_contra hany
    simp only [Bool.not_eq_true] at hany
    simp [Scripts.create_strategy, hany] at h
  · intro h
    simp [Scripts.create_strategy, h]

/-- C8 (counterexample): `_verify_model` classifies as complete a directory
holding the required files, a weight and the in-progress marker `w.part0` —
so Complete does not require the absence of in-progress markers, refuting the
claim's characterization of Complete. -/
theorem verify_model_accepts_part_marker :
    Hf.verify_model (some ["config.json", "tokenizer.json", "tokenizer_config.json",
      "pytorch_model.bin", "w.part0"]) = true ∧
    matchesPart "w.part0" = true := by
  decide

/-- C8 (amended): verification never classifies a directory without a weight
file as complete — both `validate_cache` and `_verify_model` return false on
any directory none of whose files matches a weight-file pattern; and a
directory `_verify_model` accepts always holds the whole required metadata
subset plus at least one weight file.  (`validate_cache` does not check the
metadata subset, and neither verifier checks all in-progress markers.) -/
theorem verification_requires_weight_file :
    (∀ files : List String, (∀ f ∈ files, isWeightFile f = false) →
      Scripts.validate_cache files = false ∧ Hf.verify_model (some files) = false) ∧
    (∀ files : List String, Hf.verify_model (some files) = true →
      Hf.REQUIRED_FILES.all (fun r => files.contains r) = true ∧
      ∃ w ∈ files, isWeightFile w = true) := by
  constructor
  · intro files h
    constructor
    · have h1 : files.filter (fun f => strEndsWith f ".safetensors") = [] := by
        refine List.filter_eq_nil_iff.mpr ?_
        intro a ha
        have := h a ha
        simp only [isWeightFile, Bool.or_eq_false_iff] at this
        simp [this.1]
      have h2 : files.filter (fun f => strEndsWith f ".bin") = [] := by
        refine List.filter_eq_nil_iff.mpr ?_
        intro a ha
        have := h a ha
        simp only [isWeightFile, Bool.or_eq_false_iff] at this
        simp [this.2]
      simp [Scripts.validate_cache, h1, h2]
    · have hms : "model.safetensors" ∉ files := fun hmem =>
        absurd (h "model.safetensors" hmem) (by decide)
      have hpb : "pytorch_model.bin" ∉ files := fun hmem =>
        absurd (h "pytorch_model.bin" hmem) (by decide)
      simp [Hf.verify_model, hms, hpb]
  · intro files h
    simp only [Hf.verify_model, List.any_cons, List.any_nil, Bool.or_false,
      Bool.and_eq_true, Bool.or_eq_true] at h
    refine ⟨h.1, ?_⟩
    rcases h.2 with hms | hpb
    · exact ⟨"model.safetensors", by simpa using hms, by decide⟩
    · exact ⟨"pytorch_model.bin", by simpa using hpb, by decide⟩

/-- C8 (witness): a config-only directory (all of `REQUIRED_FILES`, no weight)
is rejected by both verifiers; `_verify_model`-accepted directories carry the
required subset and a weight. -/
theorem verification_requires_weight_file_witness :
    (Scripts.validate_cache ["config.json", "tokenizer.json", "tokenizer_config.json"]
        = false ∧
      Hf.verify_model (some ["config.json", "tokenizer.json", "tokenizer_config.json"])
        = false) ∧
    (Hf.REQUIRED_FILES.all (fun r =>
        (["config.json", "tokenizer.json", "tokenizer_config.json",
          "model.safetensors"] : List String).contains r) = true ∧
      ∃ w ∈ (["config.json", "tokenizer.json", "tokenizer_config.json",
          "model.safetensors"] : List String), isWeightFile w = true) :=
  ⟨verification_requires_weight_file.1
      ["config.json", "tokenizer.json", "tokenizer_config.json"] (by decide),
    verification_requires_weight_file.2
      ["config.json", "tokenizer.json", "tokenizer_config.json", "model.safetensors"]
      (by decide)⟩

/-- C9 (confirmed): under the exponential back-off of `downloader/hf.py`
(`wait_time = 2 ** attempt`, i.e. `baseDelay = 1` second), a run whose
transfers all raise transient errors sleeps exactly
`1·2^0, 1·2^1, …` seconds: the delay before retry `k` (0-indexed) is `2^k`,
and the delay sequence is strictly increasing (hence non-decreasing, and
strictly increasing on the first two retries: 1s, 2s, …). -/
theorem hf_backoff_exponential (env : Hf.HFEnv)
    (herr : ∀ k, env.snapshot k = Except.error ())
    (hfast : (env.dirExists && Hf.verify_model (some env.initialFiles)) = false)
    (hm : 1 ≤ env.max_retries) :
    (Hf.download env).sleeps =
      (List.range (env.max_retries - 1)).map (fun k => 2 ^ k) ∧
    (∀ k, k < env.max_retries - 1 → (Hf.download env).sleeps[k]? = some (2 ^ k)) ∧
    (∀ i j x y : Nat, i < j → (Hf.download env).sleeps[i]? = some x →
      (Hf.download env).sleeps[j]? = some y → x < y) := by
  have hsl : (Hf.download env).sleeps =
      (List.range (env.max_retries - 1)).map (fun k => 2 ^ k) := by
    have hdl : Hf.download env = Hf.downloadLoop env.snapshot env.max_retries 0 [] := by
      simp [Hf.download, hfast]
    rw [hdl, Hf.downloadLoop_allError env.snapshot herr env.max_retries (by omega) 0 []]
    simp
  refine ⟨hsl, ?_, ?_⟩
  · intro k hk
    rw [hsl, List.getElem?_map, List.getElem?_range hk, Option.map_some']
  · intro i j x y hij hi hj
    rw [hsl, List.getElem?_map] at hi hj
    obtain ⟨a, ha, hax⟩ := Option.map_eq_some'.mp hi
    obtain ⟨b, hb, hby⟩ := Option.map_eq_some'.mp hj
    have hi2 : i < env.max_retries - 1 := by
      by_contra hc
      rw [List.getElem?_eq_none (by simpa using hc)] at ha
      cases ha
    have hj2 : j < env.max_retries - 1 := by
      by_contra hc
      rw [List.getElem?_eq_none (by simpa using hc)] at hb
      cases hb
    rw [List.getElem?_range hi2] at ha
    rw [List.getElem?_range hj2] at hb
    cases ha
    cases hb
    rw [← hax, ← hby]
    exact Nat.pow_lt_pow_right (by omega) hij

/-- C9 (witness): three admitted attempts, all failing — the slept delays are
`[2^0, 2^1] = [1, 2]` seconds. -/
theorem hf_backoff_exponential_witness :
    (Hf.download ⟨false, [], 3, fun _ => Except.error ()⟩).sleeps =
      (List.range 2).map (fun k => 2 ^ k) :=
  (hf_backoff_exponential ⟨false, [], 3, fun _ => Except.error ()⟩
    (fun _ => rfl) rfl (by decide)).1

/-- C10 (confirmed): `RetryPolicy.execute` with `max_retries ≤ 0` skips the
`while` loop entirely — the operation is never invoked, nothing is raised, and
the function returns the implicit `None` (despite the declared return type
`T`); likewise the `hf.py` retry loop with a configured retry count of 0
performs zero `snapshot_download` calls and its `download` returns `None`
instead of a boolean. -/
theorem retry_zero_never_invokes :
    (∀ m : Int, m ≤ 0 → ∀ (E T : Type) (d : Nat) (func : Nat → Except E T),
      Scripts.RetryPolicy.execute ⟨m, d⟩ func =
        ⟨Scripts.ExecOutcome.fellThrough, 0, []⟩) ∧
    (∀ env : Hf.HFEnv, env.max_retries = 0 →
      (env.dirExists && Hf.verify_model (some env.initialFiles)) = false →
      Hf.download env = ⟨none, 0, []⟩) := by
  constructor
  · intro m hm E T d func
    have h0 : m.toNat = 0 := Int.toNat_of_nonpos hm
    simp [Scripts.RetryPolicy.execute, h0, Scripts.executeLoop]
  · intro env h0 hfast
    simp [Hf.download, hfast, h0, Hf.downloadLoop]

/-- C10 (witness): at `max_retries = 0` the operation is skipped and `None`
falls through, in both loops. -/
theorem retry_zero_never_invokes_witness :
    Scripts.RetryPolicy.execute ⟨0, 5⟩
        (fun _ => (Except.error "x" : Except String Bool)) =
      ⟨Scripts.ExecOutcome.fellThrough, 0, []⟩ ∧
    Hf.download ⟨false, [], 0, fun _ => Except.error ()⟩ = ⟨none, 0, []⟩ :=
  ⟨retry_zero_never_invokes.1 0 (by decide) String Bool 5
      (fun _ => Except.error "x"),
    retry_zero_never_invokes.2 ⟨false, [], 0, fun _ => Except.error ()⟩ rfl rfl⟩
